import Mathlib

/-!
Shallow embedding of `src/screener.py` (blue-chip dividend stock screener).

Numeric provider/derived values are modelled as rationals (`ℚ`); Python's
`None` for an unavailable metric is modelled as `Option.none`.  Python's
truthiness test `if x:` on an optional float is false both for `None` and
for the value `0.0`; it is modelled by `pyTruthy`.  The integer score is a
`Nat` (the code only ever adds to it).
-/

namespace Screener

/-- `listLeads pat l` is true when `pat` is an initial segment of `l`. -/
def listLeads : List Char → List Char → Bool
  | [], _ => true
  | _ :: _, [] => false
  | a :: as, b :: bs => a == b && listLeads as bs

/-- `listHasSub pat l` is true when `pat` occurs contiguously in `l`. -/
def listHasSub (pat : List Char) : List Char → Bool
  | [] => listLeads pat []
  | c :: cs => listLeads pat (c :: cs) || listHasSub pat cs

/-- Models Python's `sub in s` substring test on strings. -/
def containsSub (s sub : String) : Bool :=
  listHasSub sub.toList s.toList

/-- Models Python's truthiness test `if x:` on an `Optional[float]`:
false for `None` and for `0.0`, true otherwise. -/
def pyTruthy (x : Option ℚ) : Bool :=
  match x with
  | some v => v != 0
  | none => false

/-- Left-pads a digit string with zeros up to the given length. -/
def padZeros (s : String) (len : Nat) : String :=
  ⟨List.replicate (len - s.length) '0'⟩ ++ s

/-- Models Python's fixed-point formatting `f"{q:.prec f}"` used in the
flag strings (rounding to `prec` decimal places). -/
def fmtFixed (q : ℚ) (prec : Nat) : String :=
  let sign := if q < 0 then "-" else ""
  let n : Nat := (round (|q| * (10:ℚ)^prec)).toNat
  let ip := n / 10^prec
  let fp := n % 10^prec
  if prec = 0 then sign ++ toString ip
  else sign ++ toString ip ++ "." ++ padZeros (toString fp) prec

/-- `ScreeningCriteria` (screener.py lines 22-44): configurable screening
thresholds, with the dataclass defaults. -/
structure ScreeningCriteria where
  min_dividend_yield : ℚ := 3/2
  max_dividend_yield : ℚ := 8
  min_dividend_years : Nat := 5
  max_payout_ratio : ℚ := 50
  max_payout_ratio_reit : ℚ := 85
  min_interest_coverage : ℚ := 10
  min_interest_coverage_reit : ℚ := 4
  max_debt_to_equity : ℚ := 1
  min_roic : ℚ := 12
  min_roe : ℚ := 15
  max_pe_ratio : ℚ := 25
  min_expected_return : ℚ := 8

/-- The default criteria (all dataclass defaults). -/
def defaultCriteria : ScreeningCriteria := {}

/-- `StockAnalysis` (screener.py lines 47-85): results of analyzing a
single stock.  Every metric field is optional. -/
structure StockAnalysis where
  ticker : String
  name : String
  sector : String
  dividend_yield : Option ℚ := none
  payout_ratio : Option ℚ := none
  dividend_growth_5yr : Option ℚ := none
  interest_coverage : Option ℚ := none
  debt_to_equity : Option ℚ := none
  current_ratio : Option ℚ := none
  roic : Option ℚ := none
  roe : Option ℚ := none
  profit_margin : Option ℚ := none
  pe_ratio : Option ℚ := none
  forward_pe : Option ℚ := none
  price_to_book : Option ℚ := none
  expected_return : Option ℚ := none
  passes_screen : Bool := false
  score : Nat := 0
  flags : List String := []

/-- Sector classification (screener.py lines 195-197):
`'REIT' in sector or 'Real Estate' in sector or 'Utilities' in sector`. -/
def high_leverage_sector (sector : String) : Bool :=
  (containsSub sector "REIT" || containsSub sector "Real Estate")
    || containsSub sector "Utilities"

/-- Dividend yield check (screener.py lines 199-208).  Returns the score
increment and the flags appended by this block. -/
def dividendYieldCheck (a : StockAnalysis) (c : ScreeningCriteria) :
    Nat × List String :=
  if pyTruthy a.dividend_yield then
    let y := a.dividend_yield.getD 0
    if y < c.min_dividend_yield then
      (0, ["Low dividend yield: " ++ fmtFixed y 2 ++ "%"])
    else if y > c.max_dividend_yield then
      (0, ["YIELD TRAP WARNING: " ++ fmtFixed y 2 ++ "% (unusually high)"])
    else (2, [])
  else (0, ["No dividend data"])

/-- Payout ratio check (screener.py lines 210-218). -/
def payoutRatioCheck (a : StockAnalysis) (c : ScreeningCriteria) :
    Nat × List String :=
  if pyTruthy a.payout_ratio then
    let p := a.payout_ratio.getD 0
    let max_payout := if high_leverage_sector a.sector then
      c.max_payout_ratio_reit else c.max_payout_ratio
    if p > max_payout then
      (0, ["High payout ratio: " ++ fmtFixed p 1 ++ "%"])
    else if p > 90 then
      (0, ["DIVIDEND AT RISK: Payout ratio " ++ fmtFixed p 1 ++ "%"])
    else (2, [])
  else (0, [])

/-- Dividend growth check (screener.py lines 220-227). -/
def dividendGrowthCheck (a : StockAnalysis) : Nat × List String :=
  if pyTruthy a.dividend_growth_5yr then
    let g := a.dividend_growth_5yr.getD 0
    if g > 5 then
      (if g > 10 then 3 else 2, [])
    else if g < 0 then
      (0, ["Declining dividends: " ++ fmtFixed g 1 ++ "%"])
    else (0, [])
  else (0, [])

/-- Interest coverage check (screener.py lines 229-235). -/
def interestCoverageCheck (a : StockAnalysis) (c : ScreeningCriteria) :
    Nat × List String :=
  if pyTruthy a.interest_coverage then
    let ic := a.interest_coverage.getD 0
    let min_coverage := if high_leverage_sector a.sector then
      c.min_interest_coverage_reit else c.min_interest_coverage
    if ic < min_coverage then
      (0, ["Low interest coverage: " ++ fmtFixed ic 1 ++ "x"])
    else (2, [])
  else (0, [])

/-- Debt-to-equity check (screener.py lines 237-244). -/
def debtToEquityCheck (a : StockAnalysis) (c : ScreeningCriteria) :
    Nat × List String :=
  if pyTruthy a.debt_to_equity then
    let d := a.debt_to_equity.getD 0
    if ¬ high_leverage_sector a.sector ∧ d > c.max_debt_to_equity then
      (0, ["High debt/equity: " ++ fmtFixed d 2])
    else if d < 1/2 then (2, [])
    else (1, [])
  else (0, [])

/-- ROIC/ROE check (screener.py lines 246-252). -/
def roicRoeCheck (a : StockAnalysis) (c : ScreeningCriteria) :
    Nat × List String :=
  if pyTruthy a.roic ∧ a.roic.getD 0 ≥ c.min_roic then (2, [])
  else if pyTruthy a.roe ∧ a.roe.getD 0 ≥ c.min_roe then (1, [])
  else if pyTruthy a.roe ∧ a.roe.getD 0 < 10 then
    (0, ["Low return on equity: " ++ fmtFixed (a.roe.getD 0) 1 ++ "%"])
  else (0, [])

/-- Valuation (P/E) check (screener.py lines 254-261). -/
def valuationCheck (a : StockAnalysis) (c : ScreeningCriteria) :
    Nat × List String :=
  if pyTruthy a.pe_ratio then
    let pe := a.pe_ratio.getD 0
    if pe > c.max_pe_ratio then
      (0, ["High P/E ratio: " ++ fmtFixed pe 1])
    else if pe < 15 then (2, [])
    else (1, [])
  else (0, [])

/-- Expected return check (screener.py lines 263-268). -/
def expectedReturnCheck (a : StockAnalysis) (c : ScreeningCriteria) :
    Nat × List String :=
  if pyTruthy a.expected_return then
    let er := a.expected_return.getD 0
    if er ≥ c.min_expected_return then (2, [])
    else if er ≥ 6 then (1, [])
    else (0, [])
  else (0, [])

/-- The accumulated `(score, flags)` of `screen_stock` (screener.py lines
193-268): the eight checks are independent, each adding to the score and
appending flags in order. -/
def screen_score_flags (a : StockAnalysis) (c : ScreeningCriteria) :
    Nat × List String :=
  let r1 := dividendYieldCheck a c
  let r2 := payoutRatioCheck a c
  let r3 := dividendGrowthCheck a
  let r4 := interestCoverageCheck a c
  let r5 := debtToEquityCheck a c
  let r6 := roicRoeCheck a c
  let r7 := valuationCheck a c
  let r8 := expectedReturnCheck a c
  (r1.1 + r2.1 + r3.1 + r4.1 + r5.1 + r6.1 + r7.1 + r8.1,
   r1.2 ++ r2.2 ++ r3.2 ++ r4.2 ++ r5.2 ++ r6.2 ++ r7.2 ++ r8.2)

/-- The pass verdict (screener.py line 272):
`score >= 8 and len([f for f in flags if 'WARNING' in f or 'AT RISK' in f]) == 0`. -/
def passes_of (score : Nat) (flags : List String) : Bool :=
  decide (score ≥ 8) &&
    ((flags.filter fun f =>
        containsSub f "WARNING" || containsSub f "AT RISK").length == 0)

/-- `screen_stock` (screener.py lines 187-274): applies the screening
criteria, writing `score`, `flags` and `passes_screen` (lines 270-272). -/
def screen_stock (a : StockAnalysis) (c : ScreeningCriteria) : StockAnalysis :=
  { a with
    score := (screen_score_flags a c).1
    flags := (screen_score_flags a c).2
    passes_screen :=
      passes_of (screen_score_flags a c).1 (screen_score_flags a c).2 }

/-! ### Metric Deriver (pieces of `get_stock_data`, screener.py lines 88-184) -/

/-- Interest coverage derivation (screener.py lines 133-142).  Each row of
the financial statements is a list of per-period values, most recent
first (`.iloc[0]`); a row may be missing from the statements.  The code
runs `if ebit and interest and interest != 0:
analysis.interest_coverage = abs(ebit / interest)`, so the metric is left
absent when either row is missing or empty, or either head value is zero
(Python truthiness), and otherwise equals `|EBIT / Interest Expense|`. -/
def interest_coverage_of (ebitRow interestRow : Option (List ℚ)) : Option ℚ :=
  match ebitRow, interestRow with
  | some er, some ir =>
    match er.head?, ir.head? with
    | some ebit, some interest =>
      if ebit ≠ 0 ∧ interest ≠ 0 then some |ebit / interest| else none
    | _, _ => none
  | _, _ => none

/-- ROIC approximation (screener.py lines 149-160), taking the raw
provider `returnOnAssets` fraction and the already-normalized
`analysis.debt_to_equity`:
`roic = returnOnAssets; if roic: roic *= 100;
if debt_to_equity: roic = roic * (1 + debt_to_equity) * 0.8`. -/
def roic_of (returnOnAssets debt_to_equity : Option ℚ) : Option ℚ :=
  match returnOnAssets with
  | none => none
  | some roa =>
    if roa ≠ 0 then
      let pct := roa * 100
      if pyTruthy debt_to_equity then
        some (pct * (1 + debt_to_equity.getD 0) * (4/5))
      else some pct
    else some roa

/-- Payout ratio normalization (screener.py lines 108-110):
`if analysis.payout_ratio: analysis.payout_ratio *= 100`. -/
def normalize_payout_ratio (raw : Option ℚ) : Option ℚ :=
  match raw with
  | some v => if v ≠ 0 then some (v * 100) else some v
  | none => none

/-- Debt/equity normalization (screener.py lines 127-129):
`if analysis.debt_to_equity: analysis.debt_to_equity /= 100`. -/
def normalize_debt_to_equity (raw : Option ℚ) : Option ℚ :=
  match raw with
  | some v => if v ≠ 0 then some (v / 100) else some v
  | none => none

/-- ROE normalization (screener.py lines 145-147):
`if analysis.roe: analysis.roe *= 100`. -/
def normalize_roe (raw : Option ℚ) : Option ℚ :=
  match raw with
  | some v => if v ≠ 0 then some (v * 100) else some v
  | none => none

/-- Profit margin normalization (screener.py lines 162-164):
`if analysis.profit_margin: analysis.profit_margin *= 100`. -/
def normalize_profit_margin (raw : Option ℚ) : Option ℚ :=
  match raw with
  | some v => if v ≠ 0 then some (v * 100) else some v
  | none => none

/-- The guarded inputs of the 5-year dividend growth computation
(screener.py lines 118-121): given the annual dividend totals (oldest to
newest, as produced by `dividends.resample('YE').sum()`), requires at
least 5 buckets, takes `oldest = annual_divs.iloc[-5]` and
`newest = annual_divs.iloc[-1]`, and requires `oldest > 0`. -/
def growth_window (annual_divs : List ℚ) : Option (ℚ × ℚ) :=
  if 5 ≤ annual_divs.length then
    match annual_divs.get? (annual_divs.length - 5), annual_divs.getLast? with
    | some oldest, some newest =>
      if 0 < oldest then some (oldest, newest) else none
    | _, _ => none
  else none

/-- 5-year dividend growth (screener.py line 122):
`((newest / oldest) ** 0.2 - 1) * 100`, absent when the window guard
fails. -/
noncomputable def dividend_growth_5yr_of (annual_divs : List ℚ) : Option ℝ :=
  (growth_window annual_divs).map
    (fun ow => (((ow.2 / ow.1 : ℚ) : ℝ) ^ ((1:ℝ)/5) - 1) * 100)

/-! ### Watchlist I/O (screener.py lines 403-450)

A text file is modelled as its list of lines (without terminators), as
iterated by `for line in f` / produced by `f.write(x + "\n")`. -/

/-- Python's `str.strip()` on one line: drop whitespace at both ends. -/
def stripChars (l : List Char) : List Char :=
  ((l.dropWhile Char.isWhitespace).reverse.dropWhile Char.isWhitespace).reverse

/-- Python's `str.split()` (split on whitespace runs): collects the
maximal non-whitespace runs, possibly with empty runs interspersed,
to be filtered out by `tokensOf`. -/
def splitRuns (l : List Char) : List (List Char) :=
  l.foldr (fun c acc =>
    if c.isWhitespace then [] :: acc
    else match acc with
      | [] => [[c]]
      | w :: ws => (c :: w) :: ws) []

/-- The whitespace-delimited tokens of a line, as `line.split()`. -/
def tokensOf (l : List Char) : List (List Char) :=
  (splitRuns l).filter (fun w => w ≠ [])

/-- Processing of one watchlist line (screener.py lines 422-428):
strip; skip blank lines and lines starting with `#`; otherwise take the
first whitespace-delimited token upper-cased.  (The inner `[]` token case
is unreachable: a stripped non-blank line has a first token.) -/
def loadLineChars (l : List Char) : Option (List Char) :=
  match stripChars l with
  | [] => none
  | c :: rest =>
    if c = '#' then none
    else
      match tokensOf (c :: rest) with
      | [] => none
      | t :: _ => some (t.map Char.toUpper)

/-- `load_watchlist` (screener.py lines 403-436) on the file's lines. -/
def load_watchlist (lines : List String) : List String :=
  lines.filterMap (fun line => (loadLineChars line.toList).map String.mk)

/-- `save_watchlist` (screener.py lines 439-450) as the lines written:
two `#` header lines (the second carrying the generation timestamp), a
blank line, then one line per ticker. -/
def save_watchlist (tickers : List String) (timestamp : String) : List String :=
  ["# Stock Watchlist", "# Generated on " ++ timestamp, ""] ++ tickers

/-- Python's `str.upper()` on the (ASCII) ticker strings. -/
def pyUpper (s : String) : String :=
  ⟨s.toList.map Char.toUpper⟩

/-- A well-formed ticker string: non-empty, no whitespace characters,
and not beginning with the comment character `#`. -/
def validTicker (s : String) : Prop :=
  s.toList ≠ [] ∧ (∀ c ∈ s.toList, c.isWhitespace = false) ∧
    s.toList.head? ≠ some '#'

instance : DecidablePred validTicker := fun s => by
  unfold validTicker; infer_instance

/-! ### Shared helper lemmas and concrete sample analyses -/

/-- A sample analysis with no metric data at all. -/
def emptyA : StockAnalysis := { ticker := "T", name := "T", sector := "Unknown" }

/-- Sample: yield-trap yield 9% plus four scoring metrics; screens to
score 9 with exactly one WARNING flag. -/
def exWarn : StockAnalysis :=
  { ticker := "X", name := "X", sector := "Unknown",
    dividend_yield := some 9, payout_ratio := some 40,
    dividend_growth_5yr := some 12, interest_coverage := some 20,
    debt_to_equity := some (3/10) }

/-- Sample: four +2 metrics and nothing else; screens to score 8 with no
flags. -/
def exPass : StockAnalysis :=
  { ticker := "Y", name := "Y", sector := "Unknown",
    dividend_yield := some 3, payout_ratio := some 40,
    interest_coverage := some 20, debt_to_equity := some (3/10) }

theorem hls_unknown : high_leverage_sector "Unknown" = false := by decide

theorem fmt_9_2 : fmtFixed 9 2 = "9.00" := by
  unfold fmtFixed
  norm_num [round_eq]
  decide

/-- The pass verdict unfolded: `passes_of` is true iff the score is at
least 8 and no flag contains `"WARNING"` or `"AT RISK"`. -/
theorem passes_of_iff (s : Nat) (fl : List String) :
    passes_of s fl = true ↔
      8 ≤ s ∧ ∀ f ∈ fl,
        containsSub f "WARNING" = false ∧ containsSub f "AT RISK" = false := by
  unfold passes_of
  simp [List.filter_eq_nil_iff, ge_iff_le]

theorem screen_stock_score (a : StockAnalysis) (c : ScreeningCriteria) :
    (screen_stock a c).score = (screen_score_flags a c).1 := rfl

theorem screen_stock_flags (a : StockAnalysis) (c : ScreeningCriteria) :
    (screen_stock a c).flags = (screen_score_flags a c).2 := rfl

theorem screen_stock_passes (a : StockAnalysis) (c : ScreeningCriteria) :
    (screen_stock a c).passes_screen =
      passes_of (screen_score_flags a c).1 (screen_score_flags a c).2 := rfl

theorem exWarn_eval :
    screen_score_flags exWarn defaultCriteria =
      (9, ["YIELD TRAP WARNING: " ++ fmtFixed 9 2 ++ "% (unusually high)"]) := by
  norm_num [screen_score_flags, dividendYieldCheck, payoutRatioCheck,
    dividendGrowthCheck, interestCoverageCheck, debtToEquityCheck,
    roicRoeCheck, valuationCheck, expectedReturnCheck, pyTruthy,
    hls_unknown, defaultCriteria, exWarn]

theorem exPass_eval :
    screen_score_flags exPass defaultCriteria = (8, []) := by
  norm_num [screen_score_flags, dividendYieldCheck, payoutRatioCheck,
    dividendGrowthCheck, interestCoverageCheck, debtToEquityCheck,
    roicRoeCheck, valuationCheck, expectedReturnCheck, pyTruthy,
    hls_unknown, defaultCriteria, exPass]

/-- C1: for every `StockAnalysis` and `ScreeningCriteria`, the pass
verdict of `screen_stock` is true iff the computed score is at least 8
and no computed flag contains the substring `"WARNING"` or `"AT RISK"`;
in particular `exWarn` screens to score 9 with one WARNING flag and
`passes_screen = false`, and `exPass` screens to score 8 with no flags
and `passes_screen = true`. -/
theorem pass_verdict_characterization :
    (∀ (a : StockAnalysis) (c : ScreeningCriteria),
        (screen_stock a c).passes_screen = true ↔
          8 ≤ (screen_stock a c).score ∧
            ∀ f ∈ (screen_stock a c).flags,
              containsSub f "WARNING" = false ∧
                containsSub f "AT RISK" = false)
    ∧ ((screen_stock exWarn defaultCriteria).score = 9 ∧
        (∃ f, (screen_stock exWarn defaultCriteria).flags = [f] ∧
          containsSub f "WARNING" = true) ∧
        (screen_stock exWarn defaultCriteria).passes_screen = false)
    ∧ ((screen_stock exPass defaultCriteria).score = 8 ∧
        (screen_stock exPass defaultCriteria).flags = [] ∧
        (screen_stock exPass defaultCriteria).passes_screen = true) := by
  refine ⟨fun a c => ?_,
    ⟨?_, ⟨"YIELD TRAP WARNING: " ++ fmtFixed 9 2 ++ "% (unusually high)",
      ?_, ?_⟩, ?_⟩, ?_, ?_, ?_⟩
  · rw [screen_stock_passes, screen_stock_score, screen_stock_flags]
    exact passes_of_iff _ _
  · rw [screen_stock_score, exWarn_eval]
  · rw [screen_stock_flags, exWarn_eval]
  · rw [fmt_9_2]; decide
  · rw [screen_stock_passes, exWarn_eval, fmt_9_2]; decide
  · rw [screen_stock_score, exPass_eval]
  · rw [screen_stock_flags, exPass_eval]
  · rw [screen_stock_passes, exPass_eval]; decide

/-- C1 witness: the general equivalence instantiated at `exPass` with the
default criteria. -/
theorem pass_verdict_characterization_witness :
    (screen_stock exPass defaultCriteria).passes_screen = true :=
  (pass_verdict_characterization.1 exPass defaultCriteria).mpr
    (by
      rw [screen_stock_score, screen_stock_flags, exPass_eval]
      exact ⟨by norm_num, by simp⟩)

/-- C3: if every metric field consulted by the evaluator is absent, the
screen yields score 0, `passes_screen = false`, and the flag
`"No dividend data"`. -/
theorem all_metrics_absent (a : StockAnalysis) (c : ScreeningCriteria)
    (h1 : a.dividend_yield = none) (h2 : a.payout_ratio = none)
    (h3 : a.dividend_growth_5yr = none) (h4 : a.interest_coverage = none)
    (h5 : a.debt_to_equity = none) (h6 : a.roic = none) (h7 : a.roe = none)
    (h8 : a.pe_ratio = none) (h9 : a.expected_return = none) :
    (screen_stock a c).score = 0 ∧
      (screen_stock a c).passes_screen = false ∧
      "No dividend data" ∈ (screen_stock a c).flags := by
  have he : screen_score_flags a c = (0, ["No dividend data"]) := by
    simp [screen_score_flags, dividendYieldCheck, payoutRatioCheck,
      dividendGrowthCheck, interestCoverageCheck, debtToEquityCheck,
      roicRoeCheck, valuationCheck, expectedReturnCheck, pyTruthy,
      h1, h2, h3, h4, h5, h6, h7, h8, h9]
  refine ⟨?_, ?_, ?_⟩
  · rw [screen_stock_score, he]
  · rw [screen_stock_passes, he]; decide
  · rw [screen_stock_flags, he]; simp

/-- C3 witness: the all-absent theorem applied to the concrete empty
analysis with the default criteria. -/
theorem all_metrics_absent_witness :
    (screen_stock emptyA defaultCriteria).score = 0 ∧
      (screen_stock emptyA defaultCriteria).passes_screen = false ∧
      "No dividend data" ∈ (screen_stock emptyA defaultCriteria).flags :=
  all_metrics_absent emptyA defaultCriteria
    rfl rfl rfl rfl rfl rfl rfl rfl rfl

/-- C9: screening writes only `score`, `flags` and `passes_screen`; the
identity fields and every metric field are returned unchanged. -/
theorem screen_stock_frame (a : StockAnalysis) (c : ScreeningCriteria) :
    (screen_stock a c).ticker = a.ticker ∧
    (screen_stock a c).name = a.name ∧
    (screen_stock a c).sector = a.sector ∧
    (screen_stock a c).dividend_yield = a.dividend_yield ∧
    (screen_stock a c).payout_ratio = a.payout_ratio ∧
    (screen_stock a c).dividend_growth_5yr = a.dividend_growth_5yr ∧
    (screen_stock a c).interest_coverage = a.interest_coverage ∧
    (screen_stock a c).debt_to_equity = a.debt_to_equity ∧
    (screen_stock a c).current_ratio = a.current_ratio ∧
    (screen_stock a c).roic = a.roic ∧
    (screen_stock a c).roe = a.roe ∧
    (screen_stock a c).profit_margin = a.profit_margin ∧
    (screen_stock a c).pe_ratio = a.pe_ratio ∧
    (screen_stock a c).forward_pe = a.forward_pe ∧
    (screen_stock a c).price_to_book = a.price_to_book ∧
    (screen_stock a c).expected_return = a.expected_return :=
  ⟨rfl, rfl, rfl, rfl, rfl, rfl, rfl, rfl, rfl, rfl, rfl, rfl, rfl, rfl,
    rfl, rfl⟩

/-! ### Score bounds (C7) -/

theorem dividendYieldCheck_le (a : StockAnalysis) (c : ScreeningCriteria) :
    (dividendYieldCheck a c).1 ≤ 2 := by
  unfold dividendYieldCheck
  dsimp only
  split_ifs <;> simp

theorem payoutRatioCheck_le (a : StockAnalysis) (c : ScreeningCriteria) :
    (payoutRatioCheck a c).1 ≤ 2 := by
  unfold payoutRatioCheck
  dsimp only
  split_ifs <;> simp

theorem dividendGrowthCheck_le (a : StockAnalysis) :
    (dividendGrowthCheck a).1 ≤ 3 := by
  unfold dividendGrowthCheck
  dsimp only
  split_ifs <;> simp

theorem interestCoverageCheck_le (a : StockAnalysis) (c : ScreeningCriteria) :
    (interestCoverageCheck a c).1 ≤ 2 := by
  unfold interestCoverageCheck
  dsimp only
  split_ifs <;> simp

theorem debtToEquityCheck_le (a : StockAnalysis) (c : ScreeningCriteria) :
    (debtToEquityCheck a c).1 ≤ 2 := by
  unfold debtToEquityCheck
  dsimp only
  split_ifs <;> simp

theorem roicRoeCheck_le (a : StockAnalysis) (c : ScreeningCriteria) :
    (roicRoeCheck a c).1 ≤ 2 := by
  unfold roicRoeCheck
  split_ifs <;> simp

theorem valuationCheck_le (a : StockAnalysis) (c : ScreeningCriteria) :
    (valuationCheck a c).1 ≤ 2 := by
  unfold valuationCheck
  dsimp only
  split_ifs <;> simp

theorem expectedReturnCheck_le (a : StockAnalysis) (c : ScreeningCriteria) :
    (expectedReturnCheck a c).1 ≤ 2 := by
  unfold expectedReturnCheck
  dsimp only
  split_ifs <;> simp

/-- Sample: every scoring branch taken at its maximum; screens to the
maximal score 17 under the default criteria. -/
def exMax : StockAnalysis :=
  { ticker := "Z", name := "Z", sector := "Unknown",
    dividend_yield := some 3, payout_ratio := some 40,
    dividend_growth_5yr := some 12, interest_coverage := some 20,
    debt_to_equity := some (3/10), roic := some 15,
    pe_ratio := some 12, expected_return := some 15 }

theorem exMax_eval : screen_score_flags exMax defaultCriteria = (17, []) := by
  norm_num [screen_score_flags, dividendYieldCheck, payoutRatioCheck,
    dividendGrowthCheck, interestCoverageCheck, debtToEquityCheck,
    roicRoeCheck, valuationCheck, expectedReturnCheck, pyTruthy,
    hls_unknown, defaultCriteria, exMax]

/-- C7 counterexample: `exMax` screens to score 17 under the default
criteria, so the score can exceed 15. -/
theorem score_exceeds_15 :
    (screen_stock exMax defaultCriteria).score = 17 ∧
      ¬ (screen_stock exMax defaultCriteria).score ≤ 15 := by
  have h : (screen_stock exMax defaultCriteria).score = 17 := by
    rw [screen_stock_score, exMax_eval]
  exact ⟨h, by rw [h]; decide⟩

/-- C7 (amended): the score is a nonnegative integer (a `Nat` — the code
only ever adds to it) that never exceeds 17, the sum of the maximal
contributions 2+2+3+2+2+2+2+2 of the eight checks. -/
theorem score_le_17 (a : StockAnalysis) (c : ScreeningCriteria) :
    (screen_stock a c).score ≤ 17 := by
  rw [screen_stock_score]
  unfold screen_score_flags
  have h1 := dividendYieldCheck_le a c
  have h2 := payoutRatioCheck_le a c
  have h3 := dividendGrowthCheck_le a
  have h4 := interestCoverageCheck_le a c
  have h5 := debtToEquityCheck_le a c
  have h6 := roicRoeCheck_le a c
  have h7 := valuationCheck_le a c
  have h8 := expectedReturnCheck_le a c
  simp only []
  omega

/-! ### Payout ratio branch precedence (C2) -/

/-- The applicable payout ceiling (screener.py line 212):
`criteria.max_payout_ratio_reit if high_leverage_sector else
criteria.max_payout_ratio`. -/
def payout_ceiling (a : StockAnalysis) (c : ScreeningCriteria) : ℚ :=
  if high_leverage_sector a.sector then c.max_payout_ratio_reit
  else c.max_payout_ratio

theorem fmt_95_1 : fmtFixed 95 1 = "95.0" := by
  unfold fmtFixed
  norm_num [round_eq]
  decide

/-- Sample: payout ratio exactly 0 (present but falsy in Python), no
other metrics. -/
def exZeroPayout : StockAnalysis := { emptyA with payout_ratio := some 0 }

/-- Sample: payout ratio 95% in a non-high-leverage sector. -/
def exHighPayout : StockAnalysis := { emptyA with payout_ratio := some 95 }

/-- C2 counterexample: with a present payout ratio equal to 0 the code
skips the whole payout block (Python truthiness), so in the claim's
"otherwise" region (ratio not above the ceiling and not above 90) no +2
is added: the total score stays 0, not 2 as the claim requires. -/
theorem payout_zero_no_score :
    exZeroPayout.payout_ratio = some 0 ∧
    ¬ ((0:ℚ) > defaultCriteria.max_payout_ratio) ∧
    ¬ ((0:ℚ) > 90) ∧
    payoutRatioCheck exZeroPayout defaultCriteria = (0, []) ∧
    (screen_stock exZeroPayout defaultCriteria).score = 0 ∧
    (screen_stock exZeroPayout defaultCriteria).score ≠ 2 := by
  have hs : screen_score_flags exZeroPayout defaultCriteria =
      (0, ["No dividend data"]) := by
    norm_num [screen_score_flags, dividendYieldCheck, payoutRatioCheck,
      dividendGrowthCheck, interestCoverageCheck, debtToEquityCheck,
      roicRoeCheck, valuationCheck, expectedReturnCheck, pyTruthy,
      hls_unknown, defaultCriteria, exZeroPayout, emptyA]
  refine ⟨rfl, by norm_num [defaultCriteria], by norm_num, ?_, ?_, ?_⟩
  · norm_num [payoutRatioCheck, pyTruthy, exZeroPayout, emptyA]
  · rw [screen_stock_score, hs]
  · rw [screen_stock_score, hs]; decide

/-- C2 (amended): for a present and nonzero payout ratio the ceiling
check and the >90 check are mutually exclusive branches with the ceiling
check first: above the ceiling only the "High payout ratio" flag fires
(even when the ratio also exceeds 90); at or below the ceiling but above
90 only the "DIVIDEND AT RISK" flag fires; otherwise the block adds +2
and emits no flag. -/
theorem payout_branch_precedence (a : StockAnalysis) (c : ScreeningCriteria)
    (p : ℚ) (hp : a.payout_ratio = some p) (h0 : p ≠ 0) :
    (payout_ceiling a c < p →
      payoutRatioCheck a c =
        (0, ["High payout ratio: " ++ fmtFixed p 1 ++ "%"])) ∧
    (p ≤ payout_ceiling a c → 90 < p →
      payoutRatioCheck a c =
        (0, ["DIVIDEND AT RISK: Payout ratio " ++ fmtFixed p 1 ++ "%"])) ∧
    (p ≤ payout_ceiling a c → p ≤ 90 →
      payoutRatioCheck a c = (2, [])) := by
  have he : payoutRatioCheck a c =
      if payout_ceiling a c < p then
        (0, ["High payout ratio: " ++ fmtFixed p 1 ++ "%"])
      else if 90 < p then
        (0, ["DIVIDEND AT RISK: Payout ratio " ++ fmtFixed p 1 ++ "%"])
      else (2, []) := by
    unfold payoutRatioCheck payout_ceiling
    rw [hp]
    simp [pyTruthy, h0]
  refine ⟨fun h1 => ?_, fun h1 h2 => ?_, fun h1 h2 => ?_⟩
  · rw [he, if_pos h1]
  · rw [he, if_neg (not_lt.mpr h1), if_pos h2]
  · rw [he, if_neg (not_lt.mpr h1), if_neg (not_lt.mpr h2)]

/-- C2 witness: payout 95% against the default non-high-leverage ceiling
50% fires only the "High payout ratio" flag, although 95 > 90 as well. -/
theorem payout_branch_precedence_witness :
    payoutRatioCheck exHighPayout defaultCriteria =
      (0, ["High payout ratio: 95.0%"]) := by
  have h :=
    (payout_branch_precedence exHighPayout defaultCriteria 95 rfl
      (by norm_num)).1
      (by norm_num [payout_ceiling, exHighPayout, emptyA, hls_unknown,
        defaultCriteria])
  rw [h, fmt_95_1]
  rfl

/-! ### Zero-valued metrics behave as absent (C8) -/

/-- Sample: the four metrics of C8 present but equal to 0. -/
def exZeros : StockAnalysis :=
  { ticker := "W", name := "W", sector := "Unknown",
    dividend_yield := some 0, payout_ratio := some 0,
    dividend_growth_5yr := some 0, debt_to_equity := some 0 }

/-- C8: a metric present but equal to exactly 0 is screened exactly as
if it were absent (Python truthiness): the computed score, flag list and
pass verdict coincide with those of the analysis with the field removed;
a zero dividend yield yields the "No dividend data" flag; `exZeros`
(zero yield, payout, growth and debt/equity) screens to score 0 with
only that flag; and the deriver's unit conversions are skipped for
zero-valued provider fields, leaving the stored value 0. -/
theorem zero_metric_as_absent :
    (∀ (a : StockAnalysis) (c : ScreeningCriteria),
      screen_score_flags { a with dividend_yield := some 0 } c =
          screen_score_flags { a with dividend_yield := none } c ∧
        (screen_stock { a with dividend_yield := some 0 } c).passes_screen =
          (screen_stock { a with dividend_yield := none } c).passes_screen) ∧
    (∀ (a : StockAnalysis) (c : ScreeningCriteria),
      screen_score_flags { a with payout_ratio := some 0 } c =
          screen_score_flags { a with payout_ratio := none } c ∧
        (screen_stock { a with payout_ratio := some 0 } c).passes_screen =
          (screen_stock { a with payout_ratio := none } c).passes_screen) ∧
    (∀ (a : StockAnalysis) (c : ScreeningCriteria),
      screen_score_flags { a with debt_to_equity := some 0 } c =
          screen_score_flags { a with debt_to_equity := none } c ∧
        (screen_stock { a with debt_to_equity := some 0 } c).passes_screen =
          (screen_stock { a with debt_to_equity := none } c).passes_screen) ∧
    (∀ (a : StockAnalysis) (c : ScreeningCriteria),
      screen_score_flags { a with dividend_growth_5yr := some 0 } c =
          screen_score_flags { a with dividend_growth_5yr := none } c ∧
        (screen_stock { a with dividend_growth_5yr := some 0 } c).passes_screen
          = (screen_stock { a with dividend_growth_5yr := none } c).passes_screen) ∧
    (∀ (a : StockAnalysis) (c : ScreeningCriteria),
      "No dividend data" ∈
        (screen_stock { a with dividend_yield := some 0 } c).flags) ∧
    ((screen_stock exZeros defaultCriteria).score = 0 ∧
      (screen_stock exZeros defaultCriteria).flags = ["No dividend data"]) ∧
    normalize_payout_ratio (some 0) = some 0 ∧
    normalize_debt_to_equity (some 0) = some 0 ∧
    normalize_roe (some 0) = some 0 ∧
    normalize_profit_margin (some 0) = some 0 := by
  have hz : screen_score_flags exZeros defaultCriteria =
      (0, ["No dividend data"]) := by
    norm_num [screen_score_flags, dividendYieldCheck, payoutRatioCheck,
      dividendGrowthCheck, interestCoverageCheck, debtToEquityCheck,
      roicRoeCheck, valuationCheck, expectedReturnCheck, pyTruthy,
      hls_unknown, defaultCriteria, exZeros]
  refine ⟨fun a c => ?_, fun a c => ?_, fun a c => ?_, fun a c => ?_,
    fun a c => ?_, ⟨?_, ?_⟩, ?_, ?_, ?_, ?_⟩
  · have h : screen_score_flags { a with dividend_yield := some 0 } c =
        screen_score_flags { a with dividend_yield := none } c := by
      obtain ⟨⟩ := a
      simp [screen_score_flags, dividendYieldCheck, payoutRatioCheck,
        dividendGrowthCheck, interestCoverageCheck, debtToEquityCheck,
        roicRoeCheck, valuationCheck, expectedReturnCheck, pyTruthy]
    exact ⟨h, by rw [screen_stock_passes, screen_stock_passes, h]⟩
  · have h : screen_score_flags { a with payout_ratio := some 0 } c =
        screen_score_flags { a with payout_ratio := none } c := by
      obtain ⟨⟩ := a
      simp [screen_score_flags, dividendYieldCheck, payoutRatioCheck,
        dividendGrowthCheck, interestCoverageCheck, debtToEquityCheck,
        roicRoeCheck, valuationCheck, expectedReturnCheck, pyTruthy]
    exact ⟨h, by rw [screen_stock_passes, screen_stock_passes, h]⟩
  · have h : screen_score_flags { a with debt_to_equity := some 0 } c =
        screen_score_flags { a with debt_to_equity := none } c := by
      obtain ⟨⟩ := a
      simp [screen_score_flags, dividendYieldCheck, payoutRatioCheck,
        dividendGrowthCheck, interestCoverageCheck, debtToEquityCheck,
        roicRoeCheck, valuationCheck, expectedReturnCheck, pyTruthy]
    exact ⟨h, by rw [screen_stock_passes, screen_stock_passes, h]⟩
  · have h : screen_score_flags { a with dividend_growth_5yr := some 0 } c =
        screen_score_flags { a with dividend_growth_5yr := none } c := by
      obtain ⟨⟩ := a
      simp [screen_score_flags, dividendYieldCheck, payoutRatioCheck,
        dividendGrowthCheck, interestCoverageCheck, debtToEquityCheck,
        roicRoeCheck, valuationCheck, expectedReturnCheck, pyTruthy]
    exact ⟨h, by rw [screen_stock_passes, screen_stock_passes, h]⟩
  · rw [screen_stock_flags]
    simp [screen_score_flags, dividendYieldCheck, pyTruthy]
  · rw [screen_stock_score, hz]
  · rw [screen_stock_flags, hz]
  · simp [normalize_payout_ratio]
  · simp [normalize_debt_to_equity]
  · simp [normalize_roe]
  · simp [normalize_profit_margin]

/-! ### Interest coverage (C4) and ROIC (C5) -/

/-- C4 counterexample: for EBIT −100 and interest expense 10 the code
computes `abs(ebit / interest) = 10`, not the claimed
`EBIT / |interest| = −10`. -/
theorem interest_coverage_negative_ebit :
    interest_coverage_of (some [-100]) (some [10]) = some 10 ∧
    (-100 : ℚ) / |(10 : ℚ)| = -10 ∧
    (10 : ℚ) ≠ -10 := by
  refine ⟨?_, by norm_num, by norm_num⟩
  norm_num [interest_coverage_of]

/-- C4 (amended): interest coverage is the absolute value of the
quotient EBIT / Interest Expense, taken from the most recent reporting
period (head of each row); it is left absent when either row is missing
or empty, or when either most-recent value is exactly 0 (Python
truthiness on the EBIT as well as on the interest expense). -/
theorem interest_coverage_characterization :
    (∀ (er ir : List ℚ) (ebit interest : ℚ),
      er.head? = some ebit → ir.head? = some interest →
      interest_coverage_of (some er) (some ir) =
        if ebit ≠ 0 ∧ interest ≠ 0 then some |ebit / interest| else none) ∧
    (∀ r, interest_coverage_of none r = none) ∧
    (∀ r, interest_coverage_of r none = none) ∧
    interest_coverage_of (some [-100]) (some [10]) = some 10 := by
  refine ⟨?_, ?_, ?_, ?_⟩
  · intro er ir ebit interest he hi
    unfold interest_coverage_of
    dsimp only
    rw [he, hi]
  · intro r; rfl
  · intro r; cases r <;> rfl
  · norm_num [interest_coverage_of]

/-- C4 witness: the characterization applied at EBIT 6, interest 2. -/
theorem interest_coverage_characterization_witness :
    interest_coverage_of (some [6]) (some [2]) = some 3 := by
  have h := interest_coverage_characterization.1 [6] [2] 6 2 rfl rfl
  rw [h, if_pos (by norm_num : (6:ℚ) ≠ 0 ∧ (2:ℚ) ≠ 0)]
  norm_num

/-- C5 counterexample: with ROA fraction 0.10 and a present debt/equity
equal to 0 the code skips the leverage adjustment (Python truthiness)
and yields the unadjusted 10, while the claim's formula
`10 × (1 + 0) × 0.8` gives 8. -/
theorem roic_zero_debt_counterexample :
    roic_of (some (1/10)) (some 0) = some 10 ∧
    (1/10 : ℚ) * 100 * (1 + 0) * (4/5) = 8 ∧
    (10 : ℚ) ≠ 8 := by
  refine ⟨?_, by norm_num, by norm_num⟩
  norm_num [roic_of, pyTruthy]

/-- C5 (amended): ROIC equals ROA × 100 scaled by the leverage factor
`(1 + debt/equity)` and the fixed multiplier 0.8 whenever debt/equity is
known and nonzero, and the unadjusted ROA percentage otherwise (also
when debt/equity is exactly 0, which Python treats as falsy); absent
when ROA is absent.  In particular ROA 0.10 with debt/equity 0.5 gives
10 × 1.5 × 0.8 = 12. -/
theorem roic_characterization :
    (∀ roa de : ℚ, roic_of (some roa) (some de) =
        some (if de ≠ 0 then roa * 100 * (1 + de) * (4/5)
          else roa * 100)) ∧
    (∀ roa : ℚ, roic_of (some roa) none = some (roa * 100)) ∧
    (∀ d, roic_of none d = none) ∧
    roic_of (some (1/10)) (some (1/2)) = some 12 := by
  refine ⟨?_, ?_, fun d => rfl, ?_⟩
  · intro roa de
    unfold roic_of
    rcases eq_or_ne roa 0 with h | h <;>
      rcases eq_or_ne de 0 with h2 | h2 <;>
        simp [h, h2, pyTruthy]
  · intro roa
    unfold roic_of
    rcases eq_or_ne roa 0 with h | h <;> simp [h, pyTruthy]
  · norm_num [roic_of, pyTruthy]

/-! ### 5-year dividend growth (C6) -/

/-- Bounds for the fifth root of 2 used by the C6 example:
`1.1486^5 < 2 < 1.1488^5`. -/
theorem two_rpow_fifth_bounds :
    1.1486 < (2:ℝ) ^ ((1:ℝ)/5) ∧ (2:ℝ) ^ ((1:ℝ)/5) < 1.1488 := by
  have hx : (0:ℝ) < (2:ℝ) ^ ((1:ℝ)/5) :=
    Real.rpow_pos_of_pos (by norm_num) _
  have h5 : ((2:ℝ) ^ ((1:ℝ)/5)) ^ (5:ℕ) = 2 := by
    rw [← Real.rpow_natCast ((2:ℝ) ^ ((1:ℝ)/5)) 5,
      ← Real.rpow_mul (by norm_num : (0:ℝ) ≤ 2)]
    norm_num
  constructor
  · apply lt_of_pow_lt_pow_left₀ 5 (le_of_lt hx)
    rw [h5]; norm_num
  · apply lt_of_pow_lt_pow_left₀ 5 (by norm_num : (0:ℝ) ≤ 1.1488)
    rw [h5]; norm_num

/-- C6: the 5-year dividend growth is
`((newest / oldest) ^ (1/5) − 1) × 100` over the annual dividend totals,
with `oldest` the 5th-from-last bucket and `newest` the last; it is left
absent when fewer than 5 annual buckets exist or the oldest used bucket
is ≤ 0; and on totals `[10,10,10,10,20]` it is `(2^(1/5) − 1) × 100`,
which lies strictly between 14.86 and 14.88. -/
theorem dividend_growth_characterization :
    (∀ l : List ℚ, l.length < 5 → dividend_growth_5yr_of l = none) ∧
    (∀ (l : List ℚ) (oldest newest : ℚ), 5 ≤ l.length →
      l.get? (l.length - 5) = some oldest → l.getLast? = some newest →
      oldest ≤ 0 → dividend_growth_5yr_of l = none) ∧
    (∀ (l : List ℚ) (oldest newest : ℚ), 5 ≤ l.length →
      l.get? (l.length - 5) = some oldest → l.getLast? = some newest →
      0 < oldest →
      dividend_growth_5yr_of l =
        some ((((newest / oldest : ℚ) : ℝ) ^ ((1:ℝ)/5) - 1) * 100)) ∧
    (∃ g : ℝ, dividend_growth_5yr_of [10,10,10,10,20] = some g ∧
      14.86 < g ∧ g < 14.88) := by
  have hnone : ∀ l : List ℚ, l.length < 5 → dividend_growth_5yr_of l = none := by
    intro l h
    unfold dividend_growth_5yr_of growth_window
    rw [if_neg (by omega)]
    rfl
  have hle : ∀ (l : List ℚ) (oldest newest : ℚ), 5 ≤ l.length →
      l.get? (l.length - 5) = some oldest → l.getLast? = some newest →
      oldest ≤ 0 → dividend_growth_5yr_of l = none := by
    intro l oldest newest h5 hg hl hle
    unfold dividend_growth_5yr_of growth_window
    rw [if_pos h5, hg, hl]
    dsimp only
    rw [if_neg (not_lt.mpr hle)]
    rfl
  have hpos : ∀ (l : List ℚ) (oldest newest : ℚ), 5 ≤ l.length →
      l.get? (l.length - 5) = some oldest → l.getLast? = some newest →
      0 < oldest →
      dividend_growth_5yr_of l =
        some ((((newest / oldest : ℚ) : ℝ) ^ ((1:ℝ)/5) - 1) * 100) := by
    intro l oldest newest h5 hg hl hp
    unfold dividend_growth_5yr_of growth_window
    rw [if_pos h5, hg, hl]
    dsimp only
    rw [if_pos hp]
    rfl
  refine ⟨hnone, hle, hpos, ?_⟩
  refine ⟨(((2:ℚ) : ℝ) ^ ((1:ℝ)/5) - 1) * 100, ?_, ?_, ?_⟩
  · have h := hpos [10,10,10,10,20] 10 20 (by norm_num) rfl rfl (by norm_num)
    rw [h]
    norm_num
  · have hb := two_rpow_fifth_bounds.1
    push_cast
    nlinarith [hb]
  · have hb := two_rpow_fifth_bounds.2
    push_cast
    nlinarith [hb]

/-- C6 witness: the formula branch of the characterization applied at
the concrete totals `[10,10,10,10,20]`. -/
theorem dividend_growth_characterization_witness :
    dividend_growth_5yr_of [10,10,10,10,20] =
      some (((((20:ℚ)/10 : ℚ) : ℝ) ^ ((1:ℝ)/5) - 1) * 100) :=
  dividend_growth_characterization.2.2.1 [10,10,10,10,20] 10 20
    (by norm_num) rfl rfl (by norm_num)

/-! ### Watchlist round-trip (C10) -/

theorem dropWhile_eq_self_of (p : Char → Bool) (l : List Char)
    (h : ∀ c ∈ l, p c = false) : l.dropWhile p = l := by
  cases l with
  | nil => rfl
  | cons a as => simp [List.dropWhile_cons, h a (by simp)]

theorem dropWhile_append_last (p : Char → Bool) (l : List Char) (c : Char)
    (hc : p c = false) : ∃ t, (l ++ [c]).dropWhile p = t ++ [c] := by
  induction l with
  | nil => exact ⟨[], by simp [List.dropWhile_cons, hc]⟩
  | cons a as ih =>
    by_cases h : p a = true
    · obtain ⟨t, ht⟩ := ih
      exact ⟨t, by simp [List.dropWhile_cons, h, ht]⟩
    · exact ⟨a :: as, by simp [List.dropWhile_cons, h]⟩

theorem stripChars_hash (l : List Char) :
    ∃ r, stripChars ('#' :: l) = '#' :: r := by
  unfold stripChars
  have hws : '#'.isWhitespace = false := by decide
  have h1 : ('#' :: l).dropWhile Char.isWhitespace = '#' :: l := by
    simp [List.dropWhile_cons, hws]
  rw [h1, List.reverse_cons]
  obtain ⟨t, ht⟩ := dropWhile_append_last Char.isWhitespace l.reverse '#' hws
  rw [ht]
  exact ⟨t.reverse, by simp⟩

theorem loadLine_hash (l : List Char) : loadLineChars ('#' :: l) = none := by
  obtain ⟨r, hr⟩ := stripChars_hash l
  unfold loadLineChars
  rw [hr]
  simp

theorem stripChars_eq_self (l : List Char)
    (h : ∀ c ∈ l, c.isWhitespace = false) : stripChars l = l := by
  have h2 : ∀ c ∈ l.reverse, c.isWhitespace = false :=
    fun c hc => h c (List.mem_reverse.mp hc)
  unfold stripChars
  rw [dropWhile_eq_self_of _ _ h, dropWhile_eq_self_of _ _ h2,
    List.reverse_reverse]

theorem splitRuns_nows (l : List Char) (hne : l ≠ [])
    (h : ∀ c ∈ l, c.isWhitespace = false) : splitRuns l = [l] := by
  induction l with
  | nil => exact absurd rfl hne
  | cons a as ih =>
    have ha : a.isWhitespace = false := h a (by simp)
    cases as with
    | nil => simp [splitRuns, ha]
    | cons b bs =>
      have hrest : splitRuns (b :: bs) = [b :: bs] :=
        ih (by simp) (fun c hc => h c (by simp [hc]))

      rw [show splitRuns (a :: b :: bs) =
          (if a.isWhitespace then [] :: splitRuns (b :: bs)
            else match splitRuns (b :: bs) with
              | [] => [[a]]
              | w :: ws => (a :: w) :: ws) from rfl, hrest]
      simp [ha]

theorem loadLine_valid (s : String) (h : validTicker s) :
    loadLineChars s.toList = some (s.toList.map Char.toUpper) := by
  obtain ⟨hne, hws, hhash⟩ := h
  unfold loadLineChars
  rw [stripChars_eq_self _ hws]
  cases hl : s.toList with
  | nil => exact absurd hl hne
  | cons c rest =>
    have hc : ¬ c = '#' := by
      intro heq
      exact hhash (by rw [hl, heq]; rfl)
    have hws2 : ∀ x ∈ c :: rest, x.isWhitespace = false := by
      intro x hx
      exact hws x (by rw [hl]; exact hx)
    dsimp only
    rw [if_neg hc]
    unfold tokensOf
    rw [splitRuns_nows (c :: rest) (by simp) hws2]
    simp

theorem filterMap_loadLine_valid (ts : List String) :
    (∀ t ∈ ts, validTicker t) →
      ts.filterMap (fun line => (loadLineChars line.toList).map String.mk) =
        ts.map pyUpper := by
  induction ts with
  | nil => intro _; rfl
  | cons t rest ih =>
    intro hts
    rw [List.filterMap_cons, loadLine_valid t (hts t (by simp)),
      Option.map_some']
    rw [ih (fun x hx => hts x (by simp [hx]))]
    rfl

/-- C10: saving any list of (well-formed) tickers and loading the file
back yields the same tickers in the same order, upper-cased, with the
two `#` header comment lines and the blank line excluded. -/
theorem watchlist_roundtrip (timestamp : String) (tickers : List String)
    (h : ∀ t ∈ tickers, validTicker t) :
    load_watchlist (save_watchlist tickers timestamp) =
      tickers.map pyUpper := by
  unfold load_watchlist save_watchlist
  rw [List.filterMap_append]
  have hnil : loadLineChars [] = none := rfl
  rw [filterMap_loadLine_valid tickers h]
  simp [List.filterMap_cons, loadLine_hash, hnil]

/-- C10 witness: a concrete two-ticker round trip through a concrete
timestamp, with the lower-case ticker upper-cased. -/
theorem watchlist_roundtrip_witness :
    load_watchlist (save_watchlist ["JNJ", "pg"] "2025-01-01 00:00:00") =
      ["JNJ", "PG"] := by
  rw [watchlist_roundtrip "2025-01-01 00:00:00" ["JNJ", "pg"] (by decide)]
  decide

end Screener
